import Mathlib

/-!
Verification of the ZRTP SQLite cache backend (zrtpCacheSqliteBackend.cpp).

The backend persists ZRTP key-continuity state in three SQLite tables
(zrtpIdOwn, zrtpIdRemote, zrtpNames).  We model the database state as lists
of rows, the Botan base64 transcoding applied to ZIDs, and the SQLite
behaviour of the prepared statements the backend uses.  Timestamp columns go
through SQLite's strftime with the 'unixepoch' modifier on both the write
and the read path; strftime is the identity on epoch values inside SQLite's
representable time range (julian day 0 through 9999-12-31 23:59:59, i.e.
-210866760000 .. 253402300799 seconds) and yields NULL outside it, and
sqlite3_column_int64 reads NULL back as 0.
-/

namespace ZrtpCache

/-- The RFC 4648 base64 alphabet used by Botan. -/
def b64Chars : List Char :=
  ['A', 'B', 'C', 'D', 'E', 'F', 'G', 'H', 'I', 'J', 'K', 'L', 'M',
   'N', 'O', 'P', 'Q', 'R', 'S', 'T', 'U', 'V', 'W', 'X', 'Y', 'Z',
   'a', 'b', 'c', 'd', 'e', 'f', 'g', 'h', 'i', 'j', 'k', 'l', 'm',
   'n', 'o', 'p', 'q', 'r', 's', 't', 'u', 'v', 'w', 'x', 'y', 'z',
   '0', '1', '2', '3', '4', '5', '6', '7', '8', '9', '+', '/']

/-- One output character of the base64 encoder, indexed by a sextet. -/
def encChar (n : Nat) : Char := b64Chars.getD n 'A'

/-- Position of a character in the base64 alphabet, `none` for non-alphabet
characters (this is where the decoder rejects malformed input). -/
def decChar (c : Char) : Option Nat := b64Chars.findIdx? (fun d => d = c)

/-- Model of `b64Encode` (Botan::base64_encode with final=true): groups of
three input bytes become four alphabet characters; a final partial group is
padded with `=`. -/
def b64Encode : List Nat → List Char
  | a :: b :: c :: rest =>
      encChar (a / 4) :: encChar (a % 4 * 16 + b / 16) ::
      encChar (b % 16 * 4 + c / 64) :: encChar (c % 64) :: b64Encode rest
  | [a, b] =>
      [encChar (a / 4), encChar (a % 4 * 16 + b / 16), encChar (b % 16 * 4), '=']
  | [a] => [encChar (a / 4), encChar (a % 4 * 16), '=', '=']
  | [] => []

/-- Model of `b64Decode` (Botan::base64_decode): consumes four characters at
a time, rejecting characters outside the alphabet; `=` padding ends the
input. -/
def b64Decode : List Char → Option (List Nat)
  | [] => some []
  | c1 :: c2 :: c3 :: c4 :: rest =>
      match decChar c1, decChar c2 with
      | some s1, some s2 =>
        if c3 = '=' then
          if c4 = '=' ∧ rest = [] then some [s1 * 4 + s2 / 16] else none
        else
          match decChar c3 with
          | some s3 =>
            if c4 = '=' then
              if rest = [] then some [s1 * 4 + s2 / 16, s2 % 16 * 16 + s3 / 4]
              else none
            else
              match decChar c4, b64Decode rest with
              | some s4, some ds =>
                  some ((s1 * 4 + s2 / 16) :: (s2 % 16 * 16 + s3 / 4) ::
                        (s3 % 4 * 64 + s4) :: ds)
              | _, _ => none
          | none => none
      | _, _ => none
  | _ => none

/-- Smallest epoch value SQLite's date functions accept (julian day 0). -/
def minEpoch : Int := -210866760000

/-- Largest epoch value SQLite's date functions accept (9999-12-31 23:59:59 UTC). -/
def maxEpoch : Int := 253402300799

/-- An epoch value inside SQLite's representable time range. -/
def epochInRange (v : Int) : Prop := minEpoch ≤ v ∧ v ≤ maxEpoch

instance (v : Int) : Decidable (epochInRange v) := by
  unfold epochInRange; infer_instance

/-- Model of the SQL expression strftime with format %s and the unixepoch
modifier applied to value v: the identity on the representable range, NULL
outside it.  This expression appears on the write path (binding an int64
into a TIMESTAMP column) and on the read path (selecting a TIMESTAMP
column). -/
def strftimeEpoch (v : Int) : Option Int :=
  if epochInRange v then some v else none

/-- Model of sqlite3_column_int64 applied to the strftime expression over a
stored TIMESTAMP column: NULL propagates through strftime and column_int64
turns NULL into 0. -/
def readEpochColumn (stored : Option Int) : Int :=
  ((stored.bind strftimeEpoch).getD 0)

/-- Fixed length of a ZID (IDENTIFIER_LEN in the source). -/
def identifierLen : Nat := 12

/-- Length of a retained-secret value (RS_LENGTH in the source). -/
def rsLength : Nat := 32

/-- Value of the type column for the local ZID not tied to an account
(localZidStandard in the source). -/
def localZidStandard : Int := 1

/-- Value of the type column for an account-bound local ZID
(localZidWithAccount in the source). -/
def localZidWithAccount : Int := 2

/-- Default account label used when none is supplied
(defaultAccountString in the source). -/
def defaultAccountString : String := "_STANDARD_"

/-- Modelled from the spec: the peer-secret record (remoteZidRecord_t) that
crosses the backend interface; the C struct is declared in
zrtpCacheDbBackend.h, which is outside the provided sources.  Fields follow
spec section 6 plus the remote identifier filled in by the enumeration
cursor.  A byte is a Nat below 256; timestamps are int64 epoch values. -/
structure RemoteZidRecord where
  flags : Int
  rs1 : List Nat
  rs1LastUse : Int
  rs1Ttl : Int
  rs2 : List Nat
  rs2LastUse : Int
  rs2Ttl : Int
  mitmKey : List Nat
  mitmLastUse : Int
  secureSince : Int
  preshCounter : Int
  identifier : List Nat
deriving DecidableEq

/-- A row of the zrtpIdRemote table.  ZID key columns hold base64 text;
TIMESTAMP columns hold the result of the write-path strftime expression,
which is NULL (`none`) when the bound value was outside SQLite's range. -/
structure RemoteRow where
  remoteZid : List Char
  localZid : List Char
  flags : Int
  rs1 : List Nat
  rs1LastUsed : Option Int
  rs1TimeToLive : Option Int
  rs2 : List Nat
  rs2LastUsed : Option Int
  rs2TimeToLive : Option Int
  mitmKey : List Nat
  mitmLastUsed : Option Int
  secureSince : Option Int
  preshCounter : Int
deriving DecidableEq

/-- A row of the zrtpIdOwn table. -/
structure ZidOwnRow where
  localZid : List Char
  type : Int
  accountInfo : String
deriving DecidableEq

/-- A row of the zrtpNames table. -/
structure ZidNameRow where
  remoteZid : List Char
  localZid : List Char
  flags : Int
  lastUpdate : Option Int
  accountInfo : String
  name : String
deriving DecidableEq

/-- Modelled from the spec: the name record (zidNameRecord_t) crossing the
interface; the C struct lives in zrtpCacheDbBackend.h, outside the provided
sources.  Per spec section 4.5 the caller may supply a last-update
timestamp, which insert/update override with the current time. -/
structure ZidNameRecord where
  name : Option String
  flags : Int
  lastUpdate : Int
deriving DecidableEq

/-- The ZRTP cache database: the three tables, each as a list of rows in
rowid (insertion) order. -/
structure CacheDB where
  zrtpIdOwn : List ZidOwnRow
  zrtpIdRemote : List RemoteRow
  zrtpNames : List ZidNameRow
deriving DecidableEq

/-- The empty database produced by createTables on a fresh file. -/
def emptyDB : CacheDB := ⟨[], [], []⟩

/-- WHERE clause remoteZid=?1 AND localZid=?2 of the keyed statements, with
the base64-encoded key texts already bound. -/
def rowMatches (rz lz : List Char) (row : RemoteRow) : Bool :=
  decide (row.remoteZid = rz ∧ row.localZid = lz)

/-- The row written by the insertZrtpIdRemote statement: keys as bound
base64 text, blobs as bound, every TIMESTAMP column through the write-path
strftime expression. -/
def encodeRowOfRecord (b64r b64l : List Char) (r : RemoteZidRecord) : RemoteRow where
  remoteZid := b64r
  localZid := b64l
  flags := r.flags
  rs1 := r.rs1
  rs1LastUsed := strftimeEpoch r.rs1LastUse
  rs1TimeToLive := strftimeEpoch r.rs1Ttl
  rs2 := r.rs2
  rs2LastUsed := strftimeEpoch r.rs2LastUse
  rs2TimeToLive := strftimeEpoch r.rs2Ttl
  mitmKey := r.mitmKey
  mitmLastUsed := strftimeEpoch r.mitmLastUse
  secureSince := strftimeEpoch r.secureSince
  preshCounter := r.preshCounter

/-- Model of insertRemoteZidRecord: encode both ZIDs, bind all record fields
into insertZrtpIdRemote and step it.  The zrtpIdRemote schema declares no
uniqueness constraint, so the INSERT always appends a row; the C function
returns SQLITE_OK (0). -/
def insertRemoteZidRecord (db : CacheDB) (remoteZid localZid : List Nat)
    (remZid : RemoteZidRecord) : CacheDB × Int :=
  ({ db with zrtpIdRemote := db.zrtpIdRemote ++
      [encodeRowOfRecord (b64Encode remoteZid) (b64Encode localZid) remZid] }, 0)

/-- One iteration of the result-set loop in readRemoteZidRecord (and the row
part of readNextZidRecord): every field of the caller's record except the
identifier is overwritten from the row's columns, timestamps through the
read-path strftime expression. -/
def decodeRowInto (row : RemoteRow) (r : RemoteZidRecord) : RemoteZidRecord :=
  { r with
    flags := row.flags
    rs1 := row.rs1
    rs1LastUse := readEpochColumn row.rs1LastUsed
    rs1Ttl := readEpochColumn row.rs1TimeToLive
    rs2 := row.rs2
    rs2LastUse := readEpochColumn row.rs2LastUsed
    rs2Ttl := readEpochColumn row.rs2TimeToLive
    mitmKey := row.mitmKey
    mitmLastUse := readEpochColumn row.mitmLastUsed
    secureSince := readEpochColumn row.secureSince
    preshCounter := row.preshCounter }

/-- Result of readRemoteZidRecord: the caller's record after the result-set
loop, the C return code, and the duplicate count reported in the
consistency-violation message when one is raised. -/
structure ReadRemoteResult where
  record : RemoteZidRecord
  rc : Int
  errCount : Option Nat
deriving DecidableEq

/-- Model of readRemoteZidRecord: run selectZrtpIdRemoteAll with the encoded
keys, overwrite the caller's record once per matching row (rowid order),
then: zero rows clears the flags and succeeds; more than one row returns 1
with the count in the error message; exactly one row succeeds. -/
def readRemoteZidRecord (db : CacheDB) (remoteZid localZid : List Nat)
    (remZid : RemoteZidRecord) : ReadRemoteResult :=
  let rows := db.zrtpIdRemote.filter
    (rowMatches (b64Encode remoteZid) (b64Encode localZid))
  let out := rows.foldl (fun acc row => decodeRowInto row acc) remZid
  if rows.length = 0 then
    { record := { out with flags := 0 }, rc := 0, errCount := none }
  else if rows.length > 1 then
    { record := out, rc := 1, errCount := some rows.length }
  else
    { record := out, rc := 0, errCount := none }

/-- The column assignments of the updateZrtpIdRemote statement applied to a
row: key columns are untouched, every other column is set from the bound
record, timestamps through the write-path strftime expression. -/
def updateRowFromRecord (r : RemoteZidRecord) (row : RemoteRow) : RemoteRow :=
  { row with
    flags := r.flags
    rs1 := r.rs1
    rs1LastUsed := strftimeEpoch r.rs1LastUse
    rs1TimeToLive := strftimeEpoch r.rs1Ttl
    rs2 := r.rs2
    rs2LastUsed := strftimeEpoch r.rs2LastUse
    rs2TimeToLive := strftimeEpoch r.rs2Ttl
    mitmKey := r.mitmKey
    mitmLastUsed := strftimeEpoch r.mitmLastUse
    secureSince := strftimeEpoch r.secureSince
    preshCounter := r.preshCounter }

/-- Model of updateRemoteZidRecord: UPDATE sets the non-key columns of every
row matching the encoded keys; an UPDATE matching zero rows still completes
with SQLITE_DONE, so the function returns SQLITE_OK (0) either way. -/
def updateRemoteZidRecord (db : CacheDB) (remoteZid localZid : List Nat)
    (remZid : RemoteZidRecord) : CacheDB × Int :=
  ({ db with zrtpIdRemote := db.zrtpIdRemote.map (fun row =>
      if rowMatches (b64Encode remoteZid) (b64Encode localZid) row then
        updateRowFromRecord remZid row
      else row) }, 0)

/-- Account normalization at the top of readLocalZid: a null account label,
or the default sentinel itself, selects the standalone type with the
sentinel label; any other label selects the account-bound type. -/
def normalizeAccount (accountInfo : Option String) : Int × String :=
  match accountInfo with
  | none => (localZidStandard, defaultAccountString)
  | some a =>
      if a = defaultAccountString then (localZidStandard, defaultAccountString)
      else (localZidWithAccount, a)

/-- WHERE clause type = ?1 AND accountInfo = ?2 of selectZrtpIdOwn. -/
def ownRowMatches (ty : Int) (acct : String) (row : ZidOwnRow) : Bool :=
  decide (row.type = ty ∧ row.accountInfo = acct)

/-- Result of readLocalZid: the possibly-extended database, the caller's
localZid buffer after the call, the C return code, and the duplicate count
reported in the consistency message when one is raised. -/
structure LocalZidResult where
  db : CacheDB
  localZid : List Nat
  rc : Int
  errCount : Option Nat
deriving DecidableEq

/-- Model of readLocalZid.  `buf` is the caller's localZid buffer on entry
and `fresh` is the 12-byte value the external RNG (randomZRTP) would
produce if consulted.  The result set of selectZrtpIdOwn is counted; only
the first row is decoded into the buffer.  Zero rows: the RNG value is
written to the buffer, encoded and inserted via insertZrtpIdOwn.  More than
one row: return 1 with the count.  Exactly one row: return the decoded
value. -/
def readLocalZid (db : CacheDB) (buf : List Nat) (accountInfo : Option String)
    (fresh : List Nat) : LocalZidResult :=
  let tyAcct := normalizeAccount accountInfo
  let rows := db.zrtpIdOwn.filter (ownRowMatches tyAcct.1 tyAcct.2)
  let out := match rows.head? with
    | some row => (b64Decode row.localZid).getD buf
    | none => buf
  if rows.length = 0 then
    { db := { db with zrtpIdOwn := db.zrtpIdOwn ++
        [⟨b64Encode fresh, tyAcct.1, tyAcct.2⟩] },
      localZid := fresh, rc := 0, errCount := none }
  else if rows.length > 1 then
    { db := db, localZid := out, rc := 1, errCount := some rows.length }
  else
    { db := db, localZid := out, rc := 0, errCount := none }

/-- Model of clearCache: drop zrtpIdOwn, then createTables recreates it and
initializeRemoteTables drops and recreates zrtpIdRemote and zrtpNames — the
net effect is three empty tables and SQLITE_OK. -/
def clearCache (_db : CacheDB) : CacheDB × Int := (emptyDB, 0)

/-- Sentinel stored when the caller supplies no display name. -/
def noNameSentinel : String := "_NO_NAME_"

/-- WHERE clause remoteZid=?1 AND localZid=?2 AND accountInfo=?3 of the
zrtpNames statements. -/
def nameRowMatches (rz lz : List Char) (acct : String) (row : ZidNameRow) : Bool :=
  decide (row.remoteZid = rz ∧ row.localZid = lz ∧ row.accountInfo = acct)

/-- Model of insertZidNameRecord.  `now` is the value of time(nullptr) at
the call: the statement binds it — not any caller-supplied timestamp — into
the lastUpdate column through the write-path strftime expression.  A null
account label falls back to the default sentinel and a null name to the
no-name sentinel. -/
def insertZidNameRecord (db : CacheDB) (remoteZid localZid : List Nat)
    (accountInfo : Option String) (zidName : ZidNameRecord) (now : Int) :
    CacheDB × Int :=
  ({ db with zrtpNames := db.zrtpNames ++
      [{ remoteZid := b64Encode remoteZid
         localZid := b64Encode localZid
         flags := zidName.flags
         lastUpdate := strftimeEpoch now
         accountInfo := accountInfo.getD defaultAccountString
         name := zidName.name.getD noNameSentinel }] }, 0)

/-- Model of updateZidNameRecord: UPDATE sets flags, lastUpdate (from
time(nullptr), i.e. `now`, not from the record) and name on every row
matching the key triple. -/
def updateZidNameRecord (db : CacheDB) (remoteZid localZid : List Nat)
    (accountInfo : Option String) (zidName : ZidNameRecord) (now : Int) :
    CacheDB × Int :=
  let acct := accountInfo.getD defaultAccountString
  ({ db with zrtpNames := db.zrtpNames.map (fun row =>
      if nameRowMatches (b64Encode remoteZid) (b64Encode localZid) acct row then
        { row with
          flags := zidName.flags
          lastUpdate := strftimeEpoch now
          name := zidName.name.getD noNameSentinel }
      else row) }, 0)

/-- SQLite comparison of two stored TIMESTAMP values: NULL sorts before any
integer. -/
def epochLE (a b : Option Int) : Bool :=
  match a, b with
  | none, _ => true
  | some _, none => false
  | some x, some y => decide (x ≤ y)

/-- Row comparison realizing ORDER BY secureSince DESC. -/
def cursorLE (r s : RemoteRow) : Bool := epochLE s.secureSince r.secureSince

/-- Insertion of a row into a list sorted by `le` (model of the engine's
ORDER BY result construction). -/
def insertSorted (le : RemoteRow → RemoteRow → Bool) (x : RemoteRow) :
    List RemoteRow → List RemoteRow
  | [] => [x]
  | y :: ys => if le x y then x :: y :: ys else y :: insertSorted le x ys

/-- Sort of the table rows by `le`. -/
def sortRows (le : RemoteRow → RemoteRow → Bool) (l : List RemoteRow) :
    List RemoteRow :=
  l.foldr (insertSorted le) []

/-- Model of prepareReadAllZid: the prepared
selectZrtpIdRemoteAllNoCondition statement, i.e. the pending result set of
all zrtpIdRemote rows ordered by secureSince descending. -/
def prepareReadAllZid (db : CacheDB) : List RemoteRow :=
  sortRows cursorLE db.zrtpIdRemote

/-- Model of readNextZidRecord: stepping an exhausted statement finalizes it
and signals end-of-sequence (`none`); otherwise the row's columns overwrite
the caller's record, the remote ZID text (column 11) is base64-decoded into
the identifier field, and the advanced statement is returned. -/
def readNextZidRecord (cursor : List RemoteRow) (remZid : RemoteZidRecord) :
    Option (List RemoteRow × RemoteZidRecord) :=
  match cursor with
  | [] => none
  | row :: rest =>
      some (rest,
        { decodeRowInto row remZid with
          identifier := (b64Decode row.remoteZid).getD remZid.identifier })

/-- All six timestamp fields of a peer-secret record lie in SQLite's
representable range. -/
def recordTimesInRange (r : RemoteZidRecord) : Prop :=
  epochInRange r.rs1LastUse ∧ epochInRange r.rs1Ttl ∧
  epochInRange r.rs2LastUse ∧ epochInRange r.rs2Ttl ∧
  epochInRange r.mitmLastUse ∧ epochInRange r.secureSince

instance (r : RemoteZidRecord) : Decidable (recordTimesInRange r) := by
  unfold recordTimesInRange; infer_instance

/-- A sample 12-byte ZID. -/
def zidA : List Nat := [0, 1, 2, 3, 4, 5, 6, 7, 8, 9, 10, 11]

/-- Another sample 12-byte ZID. -/
def zidB : List Nat := [11, 10, 9, 8, 7, 6, 5, 4, 3, 2, 1, 0]

/-- A third sample 12-byte ZID. -/
def zidC : List Nat := List.replicate 12 255

/-- A sample 32-byte secret. -/
def blob32 : List Nat := List.replicate 32 7

/-- A sample peer-secret record with in-range timestamps. -/
def sampleRecord : RemoteZidRecord :=
  ⟨5, blob32, 100, 200, blob32, 300, 400, blob32, 500, 600, 9, []⟩

/-- A second sample peer-secret record. -/
def sampleRecord2 : RemoteZidRecord :=
  ⟨6, List.replicate 32 8, 101, 201, List.replicate 32 9, 301, 401,
   List.replicate 32 10, 501, 601, 10, []⟩

/-- A record whose rs1LastUse lies past SQLite's representable time range. -/
def overflowRecord : RemoteZidRecord :=
  { sampleRecord with rs1LastUse := 253402300800 }

/-- An all-zero record standing for the caller's scratch output buffer. -/
def zeroRecord : RemoteZidRecord := ⟨0, [], 0, 0, [], 0, 0, [], 0, 0, 0, []⟩

/-- A sample stored row with secure-since stamp 30. -/
def rowT3 : RemoteRow :=
  ⟨b64Encode zidA, b64Encode zidB, 1, blob32, some 5, some 6, blob32, some 7,
   some 8, blob32, some 9, some 30, 1⟩

/-- A sample stored row with secure-since stamp 20. -/
def rowT2 : RemoteRow := { rowT3 with flags := 2, secureSince := some 20 }

/-- A sample stored row with secure-since stamp 10. -/
def rowT1 : RemoteRow := { rowT3 with flags := 3, secureSince := some 10 }

/-- A well-formed ZID: 12 bytes, each below 256. -/
def wfZid (z : List Nat) : Prop := z.length = identifierLen ∧ ∀ x ∈ z, x < 256

instance (z : List Nat) : Decidable (wfZid z) := by
  unfold wfZid; infer_instance

theorem decChar_encChar : ∀ n, n < 64 → decChar (encChar n) = some n := by
  decide

theorem encChar_ne_pad : ∀ n, n < 64 → encChar n ≠ '=' := by
  decide

/-- Base64 round trip for inputs whose length is a multiple of three (the
backend only encodes 12-byte ZIDs, which satisfy this). -/
theorem b64Decode_b64Encode (l : List Nat) (hb : ∀ x ∈ l, x < 256)
    (hl : l.length % 3 = 0) : b64Decode (b64Encode l) = some l := by
  induction l using b64Encode.induct with
  | case1 a b c rest ih =>
      have ha : a < 256 := hb a (by simp)
      have hbb : b < 256 := hb b (by simp)
      have hc : c < 256 := hb c (by simp)
      have h1 : a / 4 < 64 := by omega
      have h2 : a % 4 * 16 + b / 16 < 64 := by omega
      have h3 : b % 16 * 4 + c / 64 < 64 := by omega
      have h4 : c % 64 < 64 := by omega
      have hrest : b64Decode (b64Encode rest) = some rest := by
        apply ih
        · intro x hx; exact hb x (by simp [hx])
        · have h3l := hl
          simp only [List.length_cons] at h3l
          omega
      have e1 : (a / 4) * 4 + (a % 4 * 16 + b / 16) / 16 = a := by omega
      have e2 : (a % 4 * 16 + b / 16) % 16 * 16 + (b % 16 * 4 + c / 64) / 4 = b := by
        omega
      have e3 : (b % 16 * 4 + c / 64) % 4 * 64 + c % 64 = c := by omega
      simp only [b64Encode, b64Decode, decChar_encChar _ h1, decChar_encChar _ h2,
        decChar_encChar _ h3, decChar_encChar _ h4, if_neg (encChar_ne_pad _ h3),
        if_neg (encChar_ne_pad _ h4), hrest, e1, e2, e3]
  | case2 a b => simp at hl
  | case3 a => simp at hl
  | case4 => simp [b64Encode, b64Decode]

/-- The encoder is injective on well-formed byte sequences: it has a left
inverse there. -/
theorem b64Encode_inj {l₁ l₂ : List Nat} (hb₁ : ∀ x ∈ l₁, x < 256)
    (hl₁ : l₁.length % 3 = 0) (hb₂ : ∀ x ∈ l₂, x < 256)
    (hl₂ : l₂.length % 3 = 0) (h : b64Encode l₁ = b64Encode l₂) : l₁ = l₂ := by
  have h₁ := b64Decode_b64Encode l₁ hb₁ hl₁
  have h₂ := b64Decode_b64Encode l₂ hb₂ hl₂
  rw [h, h₂] at h₁
  exact (Option.some_inj.mp h₁).symm

theorem strftimeEpoch_of_inRange {v : Int} (h : epochInRange v) :
    strftimeEpoch v = some v := by
  simp [strftimeEpoch, h]

theorem readEpochColumn_strftime {v : Int} (h : epochInRange v) :
    readEpochColumn (strftimeEpoch v) = v := by
  simp [readEpochColumn, strftimeEpoch, h]

theorem rowMatches_encodeRow (a b : List Char) (r : RemoteZidRecord) :
    rowMatches a b (encodeRowOfRecord a b r) = true := by
  simp [rowMatches, encodeRowOfRecord]

theorem decodeRowInto_encodeRow (a b : List Char) (r r0 : RemoteZidRecord)
    (h : recordTimesInRange r) :
    decodeRowInto (encodeRowOfRecord a b r) r0 = { r with identifier := r0.identifier } := by
  obtain ⟨h1, h2, h3, h4, h5, h6⟩ := h
  simp [decodeRowInto, encodeRowOfRecord, readEpochColumn_strftime h1,
    readEpochColumn_strftime h2, readEpochColumn_strftime h3,
    readEpochColumn_strftime h4, readEpochColumn_strftime h5,
    readEpochColumn_strftime h6]

theorem decodeRowInto_updateRow (row : RemoteRow) (r r0 : RemoteZidRecord)
    (h : recordTimesInRange r) :
    decodeRowInto (updateRowFromRecord r row) r0 = { r with identifier := r0.identifier } := by
  obtain ⟨h1, h2, h3, h4, h5, h6⟩ := h
  simp [decodeRowInto, updateRowFromRecord, readEpochColumn_strftime h1,
    readEpochColumn_strftime h2, readEpochColumn_strftime h3,
    readEpochColumn_strftime h4, readEpochColumn_strftime h5,
    readEpochColumn_strftime h6]

theorem decodeRowInto_identifier (row : RemoteRow) (r : RemoteZidRecord) :
    (decodeRowInto row r).identifier = r.identifier := rfl

/-- C1, counterexample: the claim quantifies over every record and every
integral epoch value, but SQLite's strftime conversion yields NULL for
epoch values past 9999-12-31 23:59:59, and the read path turns that NULL
into 0.  Inserting a record with rs1LastUse = 253402300800 under a fresh
key and reading it back returns rs1LastUse = 0, not the caller's value. -/
theorem claim1_counterexample :
    (readRemoteZidRecord (insertRemoteZidRecord emptyDB zidA zidB overflowRecord).1
        zidA zidB zeroRecord).record.rs1LastUse ≠ overflowRecord.rs1LastUse ∧
    (readRemoteZidRecord (insertRemoteZidRecord emptyDB zidA zidB overflowRecord).1
        zidA zidB zeroRecord).record.rs1LastUse = 0 := by
  decide

/-- C1, amended: for every peer-secret record whose timestamp fields lie in
SQLite's representable time range and every key pair with no existing row,
insert followed by read succeeds and returns a record equal to the inserted
one in every stored field; in particular each timestamp field comes back as
the same integral epoch value the caller supplied, despite the
strftime-based temporal conversion on both the write and the read path. -/
theorem claim1_insert_read_roundtrip (db : CacheDB) (rz lz : List Nat)
    (r r0 : RemoteZidRecord)
    (hnone : db.zrtpIdRemote.filter (rowMatches (b64Encode rz) (b64Encode lz)) = [])
    (ht : recordTimesInRange r) :
    (readRemoteZidRecord (insertRemoteZidRecord db rz lz r).1 rz lz r0).rc = 0 ∧
    (readRemoteZidRecord (insertRemoteZidRecord db rz lz r).1 rz lz r0).record =
      { r with identifier := r0.identifier } := by
  simp [readRemoteZidRecord, insertRemoteZidRecord, List.filter_append, hnone,
    rowMatches_encodeRow, decodeRowInto_encodeRow _ _ _ _ ht]

/-- C1, witness for the amended theorem at concrete inputs. -/
theorem claim1_witness :
    (readRemoteZidRecord (insertRemoteZidRecord emptyDB zidA zidB sampleRecord).1
        zidA zidB zeroRecord).rc = 0 ∧
    (readRemoteZidRecord (insertRemoteZidRecord emptyDB zidA zidB sampleRecord).1
        zidA zidB zeroRecord).record =
      { sampleRecord with identifier := zeroRecord.identifier } :=
  claim1_insert_read_roundtrip emptyDB zidA zidB sampleRecord zeroRecord
    (by decide) (by decide)

/-- C2: whenever more than one zrtpIdRemote row matches a key pair, the read
fails with return code 1 and the error message carries the offending row
count; in particular two inserts under the same previously-empty key (the
schema has no uniqueness constraint, so the second insert also succeeds)
followed by a read yield the consistency error with count 2. -/
theorem claim2_duplicate_rows_error :
    (∀ (db : CacheDB) (rz lz : List Nat) (r0 : RemoteZidRecord),
      1 < (db.zrtpIdRemote.filter (rowMatches (b64Encode rz) (b64Encode lz))).length →
      (readRemoteZidRecord db rz lz r0).rc = 1 ∧
      (readRemoteZidRecord db rz lz r0).errCount =
        some (db.zrtpIdRemote.filter (rowMatches (b64Encode rz) (b64Encode lz))).length) ∧
    (∀ (db : CacheDB) (rz lz : List Nat) (r1 r2 r0 : RemoteZidRecord),
      db.zrtpIdRemote.filter (rowMatches (b64Encode rz) (b64Encode lz)) = [] →
      (insertRemoteZidRecord (insertRemoteZidRecord db rz lz r1).1 rz lz r2).2 = 0 ∧
      (readRemoteZidRecord
        (insertRemoteZidRecord (insertRemoteZidRecord db rz lz r1).1 rz lz r2).1
        rz lz r0).rc = 1 ∧
      (readRemoteZidRecord
        (insertRemoteZidRecord (insertRemoteZidRecord db rz lz r1).1 rz lz r2).1
        rz lz r0).errCount = some 2) := by
  constructor
  · intro db rz lz r0 h
    have h0 : ¬(db.zrtpIdRemote.filter (rowMatches (b64Encode rz) (b64Encode lz))).length = 0 := by
      omega
    simp [readRemoteZidRecord, h0, h]
  · intro db rz lz r1 r2 r0 hnone
    refine ⟨rfl, ?_⟩
    simp [readRemoteZidRecord, insertRemoteZidRecord, List.filter_append, hnone,
      rowMatches_encodeRow]

/-- C2, witness at concrete inputs. -/
theorem claim2_witness :
    ((readRemoteZidRecord
        (insertRemoteZidRecord (insertRemoteZidRecord emptyDB zidA zidB sampleRecord).1
          zidA zidB sampleRecord2).1 zidA zidB zeroRecord).rc = 1 ∧
      (readRemoteZidRecord
        (insertRemoteZidRecord (insertRemoteZidRecord emptyDB zidA zidB sampleRecord).1
          zidA zidB sampleRecord2).1 zidA zidB zeroRecord).errCount = some 2) := by
  have h := claim2_duplicate_rows_error.2 emptyDB zidA zidB sampleRecord sampleRecord2
    zeroRecord (by decide)
  exact ⟨h.2.1, h.2.2⟩

/-- C3: decoding the text produced by encoding any byte sequence of the
fixed 12-byte identifier length returns exactly the original bytes. -/
theorem claim3_b64_roundtrip (b : List Nat) (hl : b.length = identifierLen)
    (hb : ∀ x ∈ b, x < 256) : b64Decode (b64Encode b) = some b := by
  apply b64Decode_b64Encode b hb
  rw [hl]; rfl

/-- C3, witness at a concrete 12-byte input. -/
theorem claim3_witness : b64Decode (b64Encode zidC) = some zidC :=
  claim3_b64_roundtrip zidC (by decide) (by decide)

/-- C4: reading a key pair for which no row exists succeeds (return code 0,
not an error) and hands back a record whose flags field is 0. -/
theorem claim4_absent_key_flags_zero (db : CacheDB) (rz lz : List Nat)
    (r0 : RemoteZidRecord)
    (hnone : db.zrtpIdRemote.filter (rowMatches (b64Encode rz) (b64Encode lz)) = []) :
    (readRemoteZidRecord db rz lz r0).rc = 0 ∧
    (readRemoteZidRecord db rz lz r0).record.flags = 0 := by
  simp [readRemoteZidRecord, hnone]

/-- C4, witness on the empty database. -/
theorem claim4_witness :
    (readRemoteZidRecord emptyDB zidA zidB zeroRecord).rc = 0 ∧
    (readRemoteZidRecord emptyDB zidA zidB zeroRecord).record.flags = 0 :=
  claim4_absent_key_flags_zero emptyDB zidA zidB zeroRecord (by decide)

/-- C5: the name-store write operations stamp the lastUpdate column with the
time of the call, never with anything taken from the record argument: two
inserts made at times s1 ≤ s2 (within SQLite's range, as values of
time(nullptr) are) append rows whose stored last-update stamps are s1 and
s2, hence non-decreasing in the stored ordering; and the results of both
insert and update are unchanged under any replacement of the
caller-supplied lastUpdate field. -/
theorem claim5_name_store_stamps_now :
    (∀ (db : CacheDB) (rz lz rz' lz' : List Nat) (acct acct' : Option String)
      (nr1 nr2 : ZidNameRecord) (s1 s2 : Int),
      epochInRange s1 → epochInRange s2 → s1 ≤ s2 →
      ((insertZidNameRecord (insertZidNameRecord db rz lz acct nr1 s1).1
          rz' lz' acct' nr2 s2).1).zrtpNames.map (fun row => row.lastUpdate) =
        db.zrtpNames.map (fun row => row.lastUpdate) ++ [some s1, some s2] ∧
      epochLE (some s1) (some s2) = true) ∧
    (∀ (db : CacheDB) (rz lz : List Nat) (acct : Option String)
      (nr : ZidNameRecord) (t now : Int),
      insertZidNameRecord db rz lz acct { nr with lastUpdate := t } now =
        insertZidNameRecord db rz lz acct nr now ∧
      updateZidNameRecord db rz lz acct { nr with lastUpdate := t } now =
        updateZidNameRecord db rz lz acct nr now) := by
  constructor
  · intro db rz lz rz' lz' acct acct' nr1 nr2 s1 s2 h1 h2 hle
    refine ⟨?_, by simp [epochLE, hle]⟩
    simp [insertZidNameRecord, strftimeEpoch_of_inRange h1, strftimeEpoch_of_inRange h2]
  · intro db rz lz acct nr t now
    exact ⟨rfl, rfl⟩

/-- C5, witness at concrete inputs. -/
theorem claim5_witness :
    (((insertZidNameRecord (insertZidNameRecord emptyDB zidA zidB none
          ⟨some "alice", 1, 999⟩ 50).1 zidA zidB none
          ⟨some "bob", 2, 111⟩ 60).1).zrtpNames.map (fun row => row.lastUpdate) =
        [some 50, some 60] ∧
      epochLE (some 50) (some 60) = true) ∧
    (insertZidNameRecord emptyDB zidA zidB none
        ⟨some "alice", 1, 12345⟩ 50 =
      insertZidNameRecord emptyDB zidA zidB none ⟨some "alice", 1, 999⟩ 50) := by
  refine ⟨?_, ?_⟩
  · have h := claim5_name_store_stamps_now.1 emptyDB zidA zidB zidA zidB none none
      ⟨some "alice", 1, 999⟩ ⟨some "bob", 2, 111⟩ 50 60 (by decide) (by decide)
      (by decide)
    exact ⟨h.1, h.2⟩
  · exact (claim5_name_store_stamps_now.2 emptyDB zidA zidB none
      ⟨some "alice", 1, 999⟩ 12345 50).1

/-- C6, counterexample: a null account label and the explicit standalone
sentinel label are distinct labels, yet both normalize to the same (type,
account) pair, so the second call reads back the identifier the first call
generated instead of a distinct one — even though the RNG values offered to
the two calls differ. -/
theorem claim6_counterexample :
    (none : Option String) ≠ some defaultAccountString ∧ zidA ≠ zidB ∧
    (readLocalZid emptyDB [] none zidA).rc = 0 ∧
    (readLocalZid (readLocalZid emptyDB [] none zidA).db []
        (some defaultAccountString) zidB).rc = 0 ∧
    (readLocalZid (readLocalZid emptyDB [] none zidA).db []
        (some defaultAccountString) zidB).localZid =
      (readLocalZid emptyDB [] none zidA).localZid := by
  decide

/-- C6, amended: against the same opened cache, two resolveLocalIdentity
calls whose account labels normalize to the same (type, account) pair
(e.g. the same label twice, null included) return the same 12-byte
identifier — the first lazily generates and inserts it, the second reads it
back — and calls whose labels normalize to distinct pairs return distinct
identifiers provided the RNG hands the two calls distinct fresh values. -/
theorem claim6_local_identity :
    (∀ (db : CacheDB) (buf buf' fresh fresh' : List Nat) (acct : Option String),
      db.zrtpIdOwn.filter (ownRowMatches (normalizeAccount acct).1
        (normalizeAccount acct).2) = [] →
      fresh.length = identifierLen → (∀ x ∈ fresh, x < 256) →
      (readLocalZid db buf acct fresh).localZid = fresh ∧
      (readLocalZid db buf acct fresh).rc = 0 ∧
      (readLocalZid (readLocalZid db buf acct fresh).db buf' acct fresh').localZid =
        fresh ∧
      (readLocalZid (readLocalZid db buf acct fresh).db buf' acct fresh').rc = 0) ∧
    (∀ (db : CacheDB) (buf buf' z1 z2 : List Nat) (a1 a2 : Option String),
      normalizeAccount a1 ≠ normalizeAccount a2 →
      db.zrtpIdOwn.filter (ownRowMatches (normalizeAccount a1).1
        (normalizeAccount a1).2) = [] →
      db.zrtpIdOwn.filter (ownRowMatches (normalizeAccount a2).1
        (normalizeAccount a2).2) = [] →
      z1 ≠ z2 →
      (readLocalZid db buf a1 z1).localZid = z1 ∧
      (readLocalZid (readLocalZid db buf a1 z1).db buf' a2 z2).localZid = z2 ∧
      (readLocalZid db buf a1 z1).localZid ≠
        (readLocalZid (readLocalZid db buf a1 z1).db buf' a2 z2).localZid) := by
  constructor
  · intro db buf buf' fresh fresh' acct hnone hlen hbytes
    have hdec : b64Decode (b64Encode fresh) = some fresh :=
      b64Decode_b64Encode fresh hbytes (by rw [hlen]; rfl)
    have hmatch : ownRowMatches (normalizeAccount acct).1 (normalizeAccount acct).2
        (⟨b64Encode fresh, (normalizeAccount acct).1, (normalizeAccount acct).2⟩ :
          ZidOwnRow) = true := by
      simp [ownRowMatches]
    refine ⟨?_, ?_, ?_, ?_⟩ <;>
      simp [readLocalZid, hnone, List.filter_append, hmatch, hdec]
  · intro db buf buf' z1 z2 a1 a2 hna hn1 hn2 hz
    have hmiss : ownRowMatches (normalizeAccount a2).1 (normalizeAccount a2).2
        (⟨b64Encode z1, (normalizeAccount a1).1, (normalizeAccount a1).2⟩ :
          ZidOwnRow) = false := by
      simp only [ownRowMatches, decide_eq_false_iff_not]
      intro hcon
      exact hna (Prod.ext hcon.1 hcon.2)
    have h1 : (readLocalZid db buf a1 z1).localZid = z1 := by
      simp [readLocalZid, hn1]
    have h2 : (readLocalZid (readLocalZid db buf a1 z1).db buf' a2 z2).localZid = z2 := by
      simp [readLocalZid, hn1, hn2, List.filter_append, hmiss]
    exact ⟨h1, h2, by rw [h1, h2]; exact hz⟩

/-- C6, witness for the amended theorem at concrete inputs. -/
theorem claim6_witness :
    ((readLocalZid emptyDB [] (some "alice") zidA).localZid = zidA ∧
      (readLocalZid emptyDB [] (some "alice") zidA).rc = 0 ∧
      (readLocalZid (readLocalZid emptyDB [] (some "alice") zidA).db []
          (some "alice") zidB).localZid = zidA ∧
      (readLocalZid (readLocalZid emptyDB [] (some "alice") zidA).db []
          (some "alice") zidB).rc = 0) ∧
    ((readLocalZid emptyDB [] (some "alice") zidA).localZid = zidA ∧
      (readLocalZid (readLocalZid emptyDB [] (some "alice") zidA).db []
          (some "bob") zidB).localZid = zidB ∧
      (readLocalZid emptyDB [] (some "alice") zidA).localZid ≠
        (readLocalZid (readLocalZid emptyDB [] (some "alice") zidA).db []
            (some "bob") zidB).localZid) := by
  constructor
  · exact claim6_local_identity.1 emptyDB [] [] zidA zidB (some "alice")
      (by decide) (by decide) (by decide)
  · exact claim6_local_identity.2 emptyDB [] [] zidA zidB (some "alice") (some "bob")
      (by decide) (by decide) (by decide) (by decide)

/-! ## Permutation helpers for the enumeration-order claim -/
theorem perm_pair_eq {α : Type _} {l : List α} {a b : α}
    (h : List.Perm l [a, b]) : l = [a, b] ∨ l = [b, a] := by
  have hlen := h.length_eq
  match l, h with
  | [x, y], h =>
    have hx : x ∈ [a, b] := h.mem_iff.mp (by simp)
    simp only [List.mem_cons, List.mem_singleton, List.not_mem_nil, or_false] at hx
    rcases hx with rfl | rfl
    · left
      have := List.perm_singleton.mp h.cons_inv
      simp [this]
    · right
      have h' := h.trans (List.Perm.swap x a [])
      have := List.perm_singleton.mp h'.cons_inv
      simp [this]

theorem perm_triple_eq {α : Type _} {l : List α} {a b c : α}
    (h : List.Perm l [a, b, c]) :
    l = [a, b, c] ∨ l = [a, c, b] ∨ l = [b, a, c] ∨ l = [b, c, a] ∨
    l = [c, a, b] ∨ l = [c, b, a] := by
  have hlen := h.length_eq
  match l, h with
  | [x, y, z], h =>
    have hx : x ∈ [a, b, c] := h.mem_iff.mp (by simp)
    simp only [List.mem_cons, List.mem_singleton, List.not_mem_nil, or_false] at hx
    rcases hx with rfl | rfl | rfl
    · rcases perm_pair_eq h.cons_inv with h2 | h2
      · left; simp [h2]
      · right; left; simp [h2]
    · have h' := h.trans (List.Perm.swap x a [c])
      rcases perm_pair_eq h'.cons_inv with h2 | h2
      · right; right; left; simp [h2]
      · right; right; right; left; simp [h2]
    · have h' := h.trans (((List.Perm.swap x b []).cons a).trans
        (List.Perm.swap x a [b]))
      rcases perm_pair_eq h'.cons_inv with h2 | h2
      · right; right; right; right; left; simp [h2]
      · right; right; right; right; right; simp [h2]

theorem readEpochColumn_some {v : Int} (h : epochInRange v) :
    readEpochColumn (some v) = v := by
  simp [readEpochColumn, strftimeEpoch, h]

/-- C7: the enumeration cursor yields the peer-secret rows ordered by
secure-since descending: over a table holding, in any order, three rows
with secure-since stamps t1 < t2 < t3 (representable epochs), the prepared
result set is exactly the three rows with t3 first and successive next
calls yield records carrying secureSince t3, then t2, then t1, then signal
end-of-sequence; and over an empty peer table the first next call signals
end-of-sequence at once. -/
theorem claim7_enumeration_order (own : List ZidOwnRow) (names : List ZidNameRow)
    (rows : List RemoteRow) (a b c : RemoteRow) (t1 t2 t3 : Int)
    (r0 r0' : RemoteZidRecord)
    (hperm : List.Perm rows [a, b, c])
    (hsa : a.secureSince = some t3) (hsb : b.secureSince = some t2)
    (hsc : c.secureSince = some t1)
    (h12 : t1 < t2) (h23 : t2 < t3)
    (hr1 : epochInRange t1) (hr3 : epochInRange t3) :
    prepareReadAllZid ⟨own, rows, names⟩ = [a, b, c] ∧
    (∃ cur1 d1, readNextZidRecord (prepareReadAllZid ⟨own, rows, names⟩) r0 =
        some (cur1, d1) ∧ d1.secureSince = t3 ∧
      ∃ cur2 d2, readNextZidRecord cur1 d1 = some (cur2, d2) ∧ d2.secureSince = t2 ∧
        ∃ cur3 d3, readNextZidRecord cur2 d2 = some (cur3, d3) ∧ d3.secureSince = t1 ∧
          readNextZidRecord cur3 d3 = none) ∧
    readNextZidRecord (prepareReadAllZid ⟨own, [], names⟩) r0' = none := by
  have hr2 : epochInRange t2 := by
    obtain ⟨hl, _⟩ := hr1
    obtain ⟨_, hh⟩ := hr3
    exact ⟨by omega, by omega⟩
  have hab : cursorLE a b = true := by
    simp [cursorLE, epochLE, hsa, hsb]; omega
  have hba : cursorLE b a = false := by
    simp [cursorLE, epochLE, hsa, hsb]; omega
  have hac : cursorLE a c = true := by
    simp [cursorLE, epochLE, hsa, hsc]; omega
  have hca : cursorLE c a = false := by
    simp [cursorLE, epochLE, hsa, hsc]; omega
  have hbc : cursorLE b c = true := by
    simp [cursorLE, epochLE, hsb, hsc]; omega
  have hcb : cursorLE c b = false := by
    simp [cursorLE, epochLE, hsb, hsc]; omega
  have hsort : prepareReadAllZid ⟨own, rows, names⟩ = [a, b, c] := by
    show sortRows cursorLE rows = [a, b, c]
    rcases perm_triple_eq hperm with h | h | h | h | h | h <;> subst h <;>
      simp [sortRows, insertSorted, hab, hba, hac, hca, hbc, hcb]
  refine ⟨hsort, ?_, rfl⟩
  rw [hsort]
  refine ⟨[b, c], _, rfl, ?_, [c], _, rfl, ?_, [], _, rfl, ?_, rfl⟩
  · simp [decodeRowInto, hsa, readEpochColumn_some hr3]
  · simp [decodeRowInto, hsb, readEpochColumn_some hr2]
  · simp [decodeRowInto, hsc, readEpochColumn_some hr1]

/-- C7, witness at concrete inputs: three rows inserted in the order
t1, t3, t2 come back t3, t2, t1. -/
theorem claim7_witness :
    prepareReadAllZid ⟨[], [rowT1, rowT3, rowT2], []⟩ = [rowT3, rowT2, rowT1] ∧
    (∃ cur1 d1, readNextZidRecord (prepareReadAllZid ⟨[], [rowT1, rowT3, rowT2], []⟩)
        zeroRecord = some (cur1, d1) ∧ d1.secureSince = 30 ∧
      ∃ cur2 d2, readNextZidRecord cur1 d1 = some (cur2, d2) ∧ d2.secureSince = 20 ∧
        ∃ cur3 d3, readNextZidRecord cur2 d2 = some (cur3, d3) ∧ d3.secureSince = 10 ∧
          readNextZidRecord cur3 d3 = none) ∧
    readNextZidRecord (prepareReadAllZid ⟨[], [], []⟩) zeroRecord = none :=
  claim7_enumeration_order [] [] [rowT1, rowT3, rowT2] rowT3 rowT2 rowT1 10 20 30
    zeroRecord zeroRecord (by decide) (by decide) (by decide) (by decide)
    (by decide) (by decide) (by decide) (by decide)

/-- C8: after a successful reset, reading any peer key (in particular any
previously-inserted one) returns a record with flags 0, and resolving a
previously-resolved account label returns the fresh RNG value — distinct
from the pre-reset identifier whenever the RNG does not repeat it. -/
theorem claim8_reset_destructive (db : CacheDB) (rz lz : List Nat)
    (r0 : RemoteZidRecord) (buf buf' : List Nat) (acct : Option String)
    (z0 z' : List Nat)
    (hfresh : z' ≠ (readLocalZid db buf acct z0).localZid) :
    (clearCache (readLocalZid db buf acct z0).db).2 = 0 ∧
    (readRemoteZidRecord (clearCache (readLocalZid db buf acct z0).db).1
        rz lz r0).rc = 0 ∧
    (readRemoteZidRecord (clearCache (readLocalZid db buf acct z0).db).1
        rz lz r0).record.flags = 0 ∧
    (readLocalZid (clearCache (readLocalZid db buf acct z0).db).1
        buf' acct z').localZid = z' ∧
    (readLocalZid (clearCache (readLocalZid db buf acct z0).db).1
        buf' acct z').localZid ≠ (readLocalZid db buf acct z0).localZid := by
  have hz : (readLocalZid (clearCache (readLocalZid db buf acct z0).db).1
      buf' acct z').localZid = z' := by
    simp [clearCache, emptyDB, readLocalZid]
  refine ⟨rfl, ?_, ?_, hz, ?_⟩
  · simp [clearCache, emptyDB, readRemoteZidRecord]
  · simp [clearCache, emptyDB, readRemoteZidRecord]
  · rw [hz]; exact hfresh

/-- C8, witness at concrete inputs. -/
theorem claim8_witness :
    (clearCache (readLocalZid emptyDB [] none zidA).db).2 = 0 ∧
    (readRemoteZidRecord (clearCache (readLocalZid emptyDB [] none zidA).db).1
        zidA zidB zeroRecord).rc = 0 ∧
    (readRemoteZidRecord (clearCache (readLocalZid emptyDB [] none zidA).db).1
        zidA zidB zeroRecord).record.flags = 0 ∧
    (readLocalZid (clearCache (readLocalZid emptyDB [] none zidA).db).1
        [] none zidB).localZid = zidB ∧
    (readLocalZid (clearCache (readLocalZid emptyDB [] none zidA).db).1
        [] none zidB).localZid ≠ (readLocalZid emptyDB [] none zidA).localZid :=
  claim8_reset_destructive emptyDB zidA zidB zeroRecord [] [] none zidA zidB
    (by decide)

/-! ## Frame lemmas for the update claim -/
theorem rowMatches_updateRow (a b : List Char) (r : RemoteZidRecord)
    (row : RemoteRow) :
    rowMatches a b (updateRowFromRecord r row) = rowMatches a b row := rfl

theorem filter_map_update_self (l : List RemoteRow) (a b : List Char)
    (r : RemoteZidRecord) :
    (l.map (fun row => if rowMatches a b row then updateRowFromRecord r row
        else row)).filter (rowMatches a b) =
      (l.filter (rowMatches a b)).map (fun row => updateRowFromRecord r row) := by
  induction l with
  | nil => rfl
  | cons x xs ih =>
      cases hx : rowMatches a b x with
      | false => simp [List.filter_cons, hx, ih]
      | true => simp [List.filter_cons, hx, rowMatches_updateRow, ih]

theorem filter_map_update_other (l : List RemoteRow) (a b a' b' : List Char)
    (hne : a' ≠ a ∨ b' ≠ b) (r : RemoteZidRecord) :
    (l.map (fun row => if rowMatches a b row then updateRowFromRecord r row
        else row)).filter (rowMatches a' b') = l.filter (rowMatches a' b') := by
  induction l with
  | nil => rfl
  | cons x xs ih =>
      cases hx : rowMatches a b x with
      | false => simp [List.filter_cons, hx, ih]
      | true =>
          have hxa : x.remoteZid = a ∧ x.localZid = b := by
            simpa [rowMatches] using hx
          have hx' : rowMatches a' b' x = false := by
            simp only [rowMatches, decide_eq_false_iff_not]
            rintro ⟨h1, h2⟩
            rcases hne with h | h
            · exact h (hxa.1 ▸ h1).symm
            · exact h (hxa.2 ▸ h2).symm
          have hup : rowMatches a' b' (updateRowFromRecord r x) = false := by
            rw [rowMatches_updateRow]; exact hx'
          simp [List.filter_cons, hx, hx', hup, ih]

theorem b64Encode_wfZid_inj {z₁ z₂ : List Nat} (h₁ : wfZid z₁) (h₂ : wfZid z₂)
    (h : b64Encode z₁ = b64Encode z₂) : z₁ = z₂ :=
  b64Encode_inj h₁.2 (by rw [h₁.1]; rfl) h₂.2 (by rw [h₂.1]; rfl) h

/-- C9: updating the unique row under a key and reading it back returns
exactly the updated fields (timestamps within SQLite's range), and the
update leaves reads under every other well-formed key pair completely
unchanged. -/
theorem claim9_update_read_frame :
    (∀ (db : CacheDB) (rz lz : List Nat) (r r0 : RemoteZidRecord) (row0 : RemoteRow),
      db.zrtpIdRemote.filter (rowMatches (b64Encode rz) (b64Encode lz)) = [row0] →
      recordTimesInRange r →
      (readRemoteZidRecord (updateRemoteZidRecord db rz lz r).1 rz lz r0).rc = 0 ∧
      (readRemoteZidRecord (updateRemoteZidRecord db rz lz r).1 rz lz r0).record =
        { r with identifier := r0.identifier }) ∧
    (∀ (db : CacheDB) (rz lz rz' lz' : List Nat) (r r0 : RemoteZidRecord),
      wfZid rz → wfZid lz → wfZid rz' → wfZid lz' →
      (rz', lz') ≠ (rz, lz) →
      readRemoteZidRecord (updateRemoteZidRecord db rz lz r).1 rz' lz' r0 =
        readRemoteZidRecord db rz' lz' r0) := by
  constructor
  · intro db rz lz r r0 row0 hone ht
    simp [readRemoteZidRecord, updateRemoteZidRecord, filter_map_update_self,
      hone, decodeRowInto_updateRow _ _ _ ht]
  · intro db rz lz rz' lz' r r0 h1 h2 h3 h4 hne
    have henc : b64Encode rz' ≠ b64Encode rz ∨ b64Encode lz' ≠ b64Encode lz := by
      by_cases hr : rz' = rz
      · right
        intro he
        exact hne (by rw [hr, b64Encode_wfZid_inj h4 h2 he])
      · left
        intro he
        exact hr (b64Encode_wfZid_inj h3 h1 he)
    simp only [readRemoteZidRecord, updateRemoteZidRecord]
    rw [filter_map_update_other _ _ _ _ _ henc]

/-- C9, witness at concrete inputs. -/
theorem claim9_witness :
    ((readRemoteZidRecord (updateRemoteZidRecord
        (insertRemoteZidRecord emptyDB zidA zidB sampleRecord).1 zidA zidB
        sampleRecord2).1 zidA zidB zeroRecord).rc = 0 ∧
      (readRemoteZidRecord (updateRemoteZidRecord
        (insertRemoteZidRecord emptyDB zidA zidB sampleRecord).1 zidA zidB
        sampleRecord2).1 zidA zidB zeroRecord).record =
        { sampleRecord2 with identifier := zeroRecord.identifier }) ∧
    readRemoteZidRecord (updateRemoteZidRecord
        (insertRemoteZidRecord emptyDB zidA zidB sampleRecord).1 zidA zidB
        sampleRecord2).1 zidB zidA zeroRecord =
      readRemoteZidRecord (insertRemoteZidRecord emptyDB zidA zidB sampleRecord).1
        zidB zidA zeroRecord := by
  constructor
  · exact claim9_update_read_frame.1 (insertRemoteZidRecord emptyDB zidA zidB
      sampleRecord).1 zidA zidB sampleRecord2 zeroRecord
      (encodeRowOfRecord (b64Encode zidA) (b64Encode zidB) sampleRecord)
      (by decide) (by decide)
  · exact claim9_update_read_frame.2 (insertRemoteZidRecord emptyDB zidA zidB
      sampleRecord).1 zidA zidB zidB zidA sampleRecord2 zeroRecord
      (by decide) (by decide) (by decide) (by decide) (by decide)

/-- C10: when the keyed read finds more than one matching row it returns the
consistency error, but the caller's output record has already been
overwritten by the result-set loop: after two inserts under the same key
the erroring read leaves the decoded fields of the last scanned row in the
output record (only the identifier byte field, which this read never
touches, keeps its caller-supplied value). -/
theorem claim10_error_overwrites_output (db : CacheDB) (rz lz : List Nat)
    (r1 r2 r0 : RemoteZidRecord)
    (hnone : db.zrtpIdRemote.filter (rowMatches (b64Encode rz) (b64Encode lz)) = [])
    (ht : recordTimesInRange r2) :
    (readRemoteZidRecord
      (insertRemoteZidRecord (insertRemoteZidRecord db rz lz r1).1 rz lz r2).1
      rz lz r0).rc = 1 ∧
    (readRemoteZidRecord
      (insertRemoteZidRecord (insertRemoteZidRecord db rz lz r1).1 rz lz r2).1
      rz lz r0).record = { r2 with identifier := r0.identifier } := by
  simp [readRemoteZidRecord, insertRemoteZidRecord, List.filter_append, hnone,
    rowMatches_encodeRow, decodeRowInto_encodeRow _ _ _ _ ht,
    decodeRowInto_identifier]

/-- C10, witness at concrete inputs. -/
theorem claim10_witness :
    (readRemoteZidRecord
      (insertRemoteZidRecord (insertRemoteZidRecord emptyDB zidA zidB
        sampleRecord).1 zidA zidB sampleRecord2).1 zidA zidB zeroRecord).rc = 1 ∧
    (readRemoteZidRecord
      (insertRemoteZidRecord (insertRemoteZidRecord emptyDB zidA zidB
        sampleRecord).1 zidA zidB sampleRecord2).1 zidA zidB zeroRecord).record =
      { sampleRecord2 with identifier := zeroRecord.identifier } :=
  claim10_error_overwrites_output emptyDB zidA zidB sampleRecord sampleRecord2
    zeroRecord (by decide) (by decide)

end ZrtpCache
